import Mathlib

/-!
Shallow embedding of the Parking-Spot-Website client scripts
(`src/public/js/form.js`, `src/public/js/admin.js`, `src/public/js/parking.js`)
together with theorems settling the specification claims.

Conventions of the embedding:
* JS strings are Lean `String`s; `String.prototype.trim` is modelled by `jsTrim`.
* `localStorage` is a record of cells; each cell is `absent` (key missing),
  `corrupt` (present but `JSON.parse` throws), or `stored v` (present and
  parsing to the value `v`).  `JSON.parse`/`JSON.stringify` round-trip, so a
  write of `v` is modelled as `stored v`.
* `Date.now()` is a natural-number parameter, `Math.random()` is modelled by
  the list of base-36 fractional digits of its decimal expansion as printed by
  `Number.prototype.toString(36)` (`[]` for `0.toString(36) = "0"`).
* Status and type fields (`"available"`/`"taken"`, `"solo"`/`"shared"`) are
  kept as strings, as the scripts compare them with `===` on strings.
-/

/-! ## JS string primitives -/

/-- Model of `String.prototype.trim`: strip whitespace from both ends. -/
def jsTrim (s : String) : String :=
  String.mk (((s.data.dropWhile Char.isWhitespace).reverse.dropWhile Char.isWhitespace).reverse)

/-- Model of `String.prototype.toUpperCase` on a single ASCII character. -/
def toUpperChar (c : Char) : Char :=
  if 'a' ≤ c ∧ c ≤ 'z' then Char.ofNat (c.toNat - 32) else c

/-- Model of `String.prototype.toUpperCase`. -/
def jsToUpper (s : String) : String :=
  String.mk (s.data.map toUpperChar)

/-- The base-36 digit characters used by `Number.prototype.toString(36)`
(lowercase, as JS prints them). -/
def digitChar36 (d : Nat) : Char :=
  if d < 10 then Char.ofNat (48 + d) else Char.ofNat (87 + d)

/-- Base-36 rendering of a natural number, as `Number.prototype.toString(36)`
prints a nonnegative integer. -/
def toB36 (n : Nat) : List Char :=
  if _h : n < 36 then [digitChar36 n]
  else toB36 (n / 36) ++ [digitChar36 (n % 36)]
termination_by n
decreasing_by exact Nat.div_lt_self (by omega) (by omega)

/-- `Number.prototype.toString(36)` on a `Math.random()` result, the latter
represented by its printed base-36 fractional digits: `0` prints as `"0"`,
a nonzero value prints as `"0."` followed by its digits. -/
def randomToString36 (ds : List (Fin 36)) : String :=
  match ds with
  | [] => "0"
  | _ => String.mk ('0' :: '.' :: ds.map (fun d => digitChar36 d.val))

/-- Model of `String.prototype.substring(a, b)` (for `a ≤ b` within bounds,
which is how the scripts use it). -/
def jsSubstring (s : String) (a b : Nat) : String :=
  String.mk ((s.data.drop a).take (b - a))

/-- Model of `String.prototype.substr(start, len)`. -/
def jsSubstr (s : String) (start len : Nat) : String :=
  String.mk ((s.data.drop start).take len)

/-- Model of `Array.prototype.findIndex`: index of the first match, `-1` when
there is none. -/
def jsFindIndex {α : Type} (p : α → Bool) : List α → Int
  | [] => -1
  | x :: xs =>
    if p x then 0
    else
      let r := jsFindIndex p xs
      if r = -1 then -1 else r + 1

/-! ## Data model -/

/-- A parking spot as stored in `parkingData.json`. -/
structure Spot where
  id : String
  status : String
  type : String
  assignedTo : Option String
deriving DecidableEq

/-- A lot: display name plus its ordered spots. -/
structure Lot where
  name : String
  spots : List Spot
deriving DecidableEq

/-- The persisted Selection written by `selectSpot` (`parking.js`). -/
structure Selection where
  id : String
  lot : String
  type : String
  half : Option String
deriving DecidableEq

/-- A Registration as assembled by `collectFormData` (`form.js`).
`parkingPartner`, `partnerDays`, `userSchedule` are only present for shared
spots, hence `Option`. -/
structure Registration where
  fullName : String
  studentId : String
  email : String
  phone : String
  spotType : String
  gradeLevel : String
  parkingLot : String
  parkingSpot : String
  parkingPartner : Option String
  partnerDays : Option String
  userSchedule : Option String
  submittedAt : String
  referenceId : String
deriving DecidableEq

/-- The admin session record written by `createAdminSession` (`admin.js`). -/
structure AdminSession where
  authenticated : Bool
  loginTime : String
  sessionId : String
deriving DecidableEq

/-- A persisted key's state: missing, present-but-unparsable, or a value. -/
inductive StorageCell (α : Type) where
  | absent
  | corrupt
  | stored (val : α)
deriving DecidableEq

/-- The localStorage keys the claims are about. -/
structure Store where
  selectedParkingSpot : StorageCell Selection
  currentRegistration : StorageCell Registration
  parkingSubmissions : StorageCell (List Registration)
  adminSession : StorageCell AdminSession
deriving DecidableEq

/-- `JSON.parse(localStorage.getItem('parkingSubmissions') || '[]')`
(form.js line 362): an absent key falls back to the literal `'[]'`, a corrupt
value makes `JSON.parse` throw, a stored list parses back. -/
def jsonParseOrEmpty (cell : StorageCell (List Registration)) :
    Except String (List Registration) :=
  match cell with
  | .absent => .ok []
  | .corrupt => .error "SyntaxError: Unexpected token in JSON"
  | .stored l => .ok l

/-! ## form.js -/

/-- The registration form's raw field values (`document.getElementById(...)`).
`terms` is the checkbox's `checked` flag. -/
structure FormFields where
  fullName : String
  studentId : String
  email : String
  phone : String
  spotType : String
  partnerName : String
  partnerDays : String
  gradeLevel : String
  terms : Bool
deriving DecidableEq

/-- `validateStudentId` (form.js lines 311-314): `/^\d{6,8}$/.test(id.trim())`. -/
def validateStudentId (id : String) : Bool :=
  let t := jsTrim id
  decide (6 ≤ t.data.length) && decide (t.data.length ≤ 8) && t.data.all Char.isDigit

/-- A character admissible inside every group of the email pattern
`^[^\s@]+@[^\s@]+\.[^\s@]+$`. -/
def isEmailChar (c : Char) : Bool :=
  !c.isWhitespace && c ≠ '@'

/-- `validateEmail` (form.js lines 319-322):
`/^[^\s@]+@[^\s@]+\.[^\s@]+$/.test(email.trim())`.  A string matches iff it
splits as `a ++ "@" ++ r` with `a` a nonempty run without whitespace or `@`,
`r` nonempty without whitespace or `@`, and `r` containing a `.` that is
neither its first nor its last character. -/
def validateEmail (email : String) : Bool :=
  let t := (jsTrim email).data
  let a := t.takeWhile (fun c => c ≠ '@')
  match t.drop a.length with
  | '@' :: r =>
    (!a.isEmpty) && a.all isEmailChar &&
    (!r.isEmpty) && r.all isEmailChar &&
    ((r.drop 1).dropLast.contains '.')
  | _ => false

/-- Errors pushed for the full-name field (form.js lines 204-209). -/
def fullNameErrors (f : FormFields) : List String :=
  if jsTrim f.fullName = "" then ["Full Name is required"] else []

/-- Errors pushed for the student-id field (form.js lines 211-219). -/
def studentIdErrors (f : FormFields) : List String :=
  if jsTrim f.studentId = "" then ["Student ID is required"]
  else if validateStudentId f.studentId = false then ["Student ID must be 6-8 digits"]
  else []

/-- Errors pushed for the email field (form.js lines 221-229). -/
def emailErrors (f : FormFields) : List String :=
  if jsTrim f.email = "" then ["Email is required"]
  else if validateEmail f.email = false then ["Please enter a valid email address"]
  else []

/-- Errors pushed for the spot-type field (form.js lines 231-236). -/
def spotTypeErrors (f : FormFields) : List String :=
  if f.spotType = "" then ["Please select a parking spot type"] else []

/-- Errors pushed for the partner-name field (form.js lines 238-245). -/
def partnerErrors (f : FormFields) : List String :=
  if f.spotType = "Shared" then
    if jsTrim f.partnerName = "" then ["Partner name is required for shared spots"] else []
  else []

/-- Errors pushed for the grade-level field (form.js lines 247-252). -/
def gradeLevelErrors (f : FormFields) : List String :=
  if f.gradeLevel = "" then ["Grade level is required"] else []

/-- Errors pushed for the terms checkbox (form.js lines 254-259). -/
def termsErrors (f : FormFields) : List String :=
  if f.terms = false then ["You must agree to the parking rules"] else []

/-- `validateForm` (form.js lines 184-272): the ordered list of error messages
accumulated in `errors`; the function returns `true` iff this list is empty. -/
def validateForm (f : FormFields) : List String :=
  fullNameErrors f ++ studentIdErrors f ++ emailErrors f ++ spotTypeErrors f ++
    partnerErrors f ++ gradeLevelErrors f ++ termsErrors f

/-- `validateField` (form.js lines 277-306): the per-field validity flag
computed on change/blur, by field id. -/
def validateField (fieldId : String) (value : String) : Bool :=
  match fieldId with
  | "fullName" => decide ((jsTrim value).data.length > 0)
  | "studentId" => validateStudentId value
  | "email" => validateEmail value || jsTrim value = ""
  | "spotType" => value ≠ ""
  | "gradeLevel" => value ≠ ""
  | _ => true

/-- `generateReferenceId` (form.js lines 372-376):
`REF-` + `Date.now().toString(36).toUpperCase()` + `-` +
`Math.random().toString(36).substring(2, 7).toUpperCase()`. -/
def generateReferenceId (timestampMs : Nat) (randDigits : List (Fin 36)) : String :=
  let timestamp := jsToUpper (String.mk (toB36 timestampMs))
  let random := jsToUpper (jsSubstring (randomToString36 randDigits) 2 7)
  "REF-" ++ timestamp ++ "-" ++ random

/-- `collectFormData` (form.js lines 327-352).  The object literal writes the
`spotType` key twice — first the form field, then `selectedSpot.type` — so the
Selection's type wins.  `now` is `new Date().toISOString()`, `ts`/`rand` feed
`generateReferenceId`. -/
def collectFormData (f : FormFields) (sel : Selection) (now : String)
    (ts : Nat) (rand : List (Fin 36)) : Registration :=
  let base : Registration :=
    { fullName := jsTrim f.fullName
      studentId := jsTrim f.studentId
      email := jsTrim f.email
      phone := jsTrim f.phone
      spotType := sel.type
      gradeLevel := f.gradeLevel
      parkingLot := sel.lot
      parkingSpot := sel.id
      parkingPartner := none
      partnerDays := none
      userSchedule := none
      submittedAt := now
      referenceId := generateReferenceId ts rand }
  if sel.type = "shared" then
    { base with
      parkingPartner := some (jsTrim f.partnerName)
      partnerDays := some f.partnerDays
      userSchedule := some (if sel.half = some "A" then "Monday/Wednesday/Friday"
                            else "Tuesday/Thursday") }
  else base

/-- `saveFormData` (form.js lines 357-367): write `currentRegistration`, then
read-parse-append-rewrite `parkingSubmissions`.  The parse is not wrapped in
try/catch, so a corrupt stored list makes the whole function throw (after the
`currentRegistration` write). -/
def saveFormData (fd : Registration) (st : Store) : Except String Store :=
  let st1 := { st with currentRegistration := StorageCell.stored fd }
  match jsonParseOrEmpty st1.parkingSubmissions with
  | .error e => .error e
  | .ok submissions =>
    .ok { st1 with parkingSubmissions := StorageCell.stored (submissions ++ [fd]) }

/-- `handleFormSubmit` (form.js lines 155-179): validate, check the selection,
collect, save.  Early returns leave the store untouched. -/
def handleFormSubmit (f : FormFields) (sel : Option Selection) (now : String)
    (ts : Nat) (rand : List (Fin 36)) (st : Store) : Except String Store :=
  if (validateForm f).isEmpty = false then .ok st
  else
    match sel with
    | none => .ok st
    | some s => saveFormData (collectFormData f s now ts rand) st

/-! ## admin.js -/

/-- The two screens of the admin console. -/
inductive Screen where
  | LoggedOut
  | Dashboard
deriving DecidableEq

/-- The admin config resource (`public/data/config.json`). -/
structure Config where
  adminPassword : String
deriving DecidableEq

/-- `generateSessionId` (admin.js lines 167-169):
`'SESSION-' + Date.now() + '-' + Math.random().toString(36).substr(2, 9)`. -/
def generateSessionId (ts : Nat) (ds : List (Fin 36)) : String :=
  "SESSION-" ++ toString ts ++ "-" ++ jsSubstr (randomToString36 ds) 2 9

/-- `createAdminSession` (admin.js lines 131-139): the session record written
to the `adminSession` key. -/
def createAdminSession (now : String) (ts : Nat) (ds : List (Fin 36)) : AdminSession :=
  { authenticated := true, loginTime := now, sessionId := generateSessionId ts ds }

/-- `isSessionValid` (admin.js lines 146-161) on a stored cell: a corrupt
value is caught and counts as invalid; otherwise both `authenticated` and
`loginTime` must be truthy (a string is truthy iff nonempty). -/
def isSessionValid (cell : StorageCell AdminSession) : Bool :=
  match cell with
  | .absent => false
  | .corrupt => false
  | .stored s => s.authenticated && s.loginTime ≠ ""

/-- The screen decision of `checkAdminSession` (admin.js lines 26-46):
Dashboard iff the session key is present and valid. -/
def checkAdminSession (st : Store) : Screen :=
  match st.adminSession with
  | .absent => .LoggedOut
  | c => if isSessionValid c then .Dashboard else .LoggedOut

/-- Outcome of a login attempt: resulting screen, error message shown (if
any), the password input's remaining text, and the store. -/
structure LoginResult where
  screen : Screen
  errorMsg : Option String
  passwordInput : String
  store : Store
deriving DecidableEq

/-- `handleAdminLogin` (admin.js lines 79-126).  `config` is the settled
result of the `fetch('public/data/config.json')` chain; an empty trimmed
password returns before that fetch is even issued (so the result cannot
depend on `config`). -/
def handleAdminLogin (input : String) (config : Except String Config)
    (now : String) (ts : Nat) (ds : List (Fin 36)) (st : Store) : LoginResult :=
  let password := jsTrim input
  if password = "" then
    { screen := .LoggedOut, errorMsg := some "Please enter a password."
      passwordInput := input, store := st }
  else
    match config with
    | .error _ =>
      { screen := .LoggedOut
        errorMsg := some "Error loading system configuration. Please refresh the page."
        passwordInput := input, store := st }
    | .ok cfg =>
      if password = cfg.adminPassword then
        let st1 := { st with adminSession := StorageCell.stored (createAdminSession now ts ds) }
        { screen := checkAdminSession st1, errorMsg := none
          passwordInput := "", store := st1 }
      else
        { screen := .LoggedOut, errorMsg := some "Invalid password. Please try again."
          passwordInput := "", store := st }

/-- `loadStudentSubmissions` (admin.js lines 294-311): absent key or a caught
parse error both yield the empty list. -/
def loadStudentSubmissions (cell : StorageCell (List Registration)) : List Registration :=
  match cell with
  | .absent => []
  | .corrupt => []
  | .stored l => l

/-- Dashboard state: the in-memory inventory (`parkingData`, an object keyed
by lot key), the in-memory `studentSubmissions`, and localStorage. -/
structure AdminState where
  parkingData : List (String × Lot)
  studentSubmissions : List Registration
  store : Store
deriving DecidableEq

/-- `parkingData[lotKey]` on the keyed-object model. -/
def lookupLot (pd : List (String × Lot)) (k : String) : Option Lot :=
  (pd.find? (fun p => p.1 == k)).map (fun p => p.2)

/-- In-place mutation of the spot object returned by
`parkingData[lotKey].spots.find(s => s.id === spotId)`: the first spot with
the given id gets `status = 'available'`, `assignedTo = null`. -/
def setSpotCleared (spotId : String) : List Spot → List Spot
  | [] => []
  | sp :: rest =>
    if sp.id == spotId then
      { sp with status := "available", assignedTo := none } :: rest
    else sp :: setSpotCleared spotId rest

/-- Replace the lot object stored under `k` (the JS code mutates it in
place through the reference held by `parkingData[lotKey]`). -/
def updateLot (pd : List (String × Lot)) (k : String) (newLot : Lot) :
    List (String × Lot) :=
  pd.map (fun p => if p.1 == k then (p.1, newLot) else p)

/-- The confirmed remove-registration branch of `setupTableActions`
(admin.js lines 529-544): `studentSubmissions.splice(index, 1)` then rewrite
the `parkingSubmissions` key.  `studentSubmissions[index]` being `undefined`
(out of range) skips the action. -/
def removeStudentAction (index : Nat) (st : AdminState) : AdminState :=
  match st.studentSubmissions[index]? with
  | none => st
  | some _ =>
    let subs := st.studentSubmissions.eraseIdx index
    { st with
      studentSubmissions := subs
      store := { st.store with parkingSubmissions := StorageCell.stored subs } }

/-- The confirmed clear-spot branch of `setupTableActions`
(admin.js lines 547-575): find the spot, set it available/unassigned, then
`findIndex` the first registration whose `parkingSpot` equals the spot id and,
if found, splice it out and rewrite the `parkingSubmissions` key. -/
def clearSpotAction (st : AdminState) (lotKey spotId : String) : AdminState :=
  match lookupLot st.parkingData lotKey with
  | none => st
  | some lot =>
    match lot.spots.find? (fun s => s.id == spotId) with
    | none => st
    | some _ =>
      let newLot : Lot := { lot with spots := setSpotCleared spotId lot.spots }
      let pd := updateLot st.parkingData lotKey newLot
      let studentIndex := jsFindIndex (fun s => s.parkingSpot == spotId) st.studentSubmissions
      if studentIndex ≠ -1 then
        let subs := st.studentSubmissions.eraseIdx studentIndex.toNat
        { parkingData := pd, studentSubmissions := subs
          store := { st.store with parkingSubmissions := StorageCell.stored subs } }
      else
        { parkingData := pd, studentSubmissions := st.studentSubmissions
          store := st.store }

/-! ## parking.js -/

/-- What a rendered activation target does when clicked.  `selectGuarded`
is a handler that re-checks `spot.status !== 'taken'` in its body (the Vue
`renderGrid`, lines 87-101); `selectDirect` is an unguarded handler that was
only attached because the spot was not taken at render time (`renderGrid`
lines 112-116 and the top-level `renderLot`, lines 328-351); `noHandler` is a
target with no click listener at all. -/
inductive ClickHandler where
  | noHandler
  | selectGuarded (spot : Spot) (half : Option String)
  | selectDirect (spot : Spot) (half : Option String)
deriving DecidableEq

/-- The Selection object built and persisted by `selectSpot`
(parking.js lines 363-389 and 126-152). -/
def selectSpotResult (sp : Spot) (half : Option String) (currentLot : String) : Selection :=
  { id := sp.id, lot := currentLot, type := sp.type, half := half }

/-- Activation targets produced for one spot by the Vue `renderGrid`
(parking.js lines 64-121): shared spots get two always-attached but guarded
half handlers; solo spots get one handler only when not taken. -/
def renderGridTargets (sp : Spot) : List ClickHandler :=
  if sp.type = "shared" then
    [ .selectGuarded sp (some "A"), .selectGuarded sp (some "B") ]
  else
    if sp.status ≠ "taken" then [ .selectDirect sp none ] else [ .noHandler ]

/-- Activation targets produced for one spot by the top-level `renderLot`
(parking.js lines 296-358): every handler is attached only when the spot is
not taken. -/
def renderLotTargets (sp : Spot) : List ClickHandler :=
  if sp.type = "shared" then
    [ (if sp.status ≠ "taken" then ClickHandler.selectDirect sp (some "A") else .noHandler),
      (if sp.status ≠ "taken" then ClickHandler.selectDirect sp (some "B") else .noHandler) ]
  else
    if sp.status ≠ "taken" then [ .selectDirect sp none ] else [ .noHandler ]

/-- Firing a click on a target: the Selection that `selectSpot` builds and
persists, or `none` when no selection happens. -/
def clickOutcome (h : ClickHandler) (currentLot : String) : Option Selection :=
  match h with
  | .noHandler => none
  | .selectGuarded sp half =>
    if sp.status ≠ "taken" then some (selectSpotResult sp half currentLot) else none
  | .selectDirect sp half => some (selectSpotResult sp half currentLot)

/-- A click event: which render path produced the target (`true` = Vue
`renderGrid`, `false` = top-level `renderLot`), the spot, the target index
within that spot's targets, and the current lot name. -/
structure ClickEvent where
  gridPath : Bool
  spot : Spot
  targetIdx : Nat
  currentLot : String
deriving DecidableEq

/-- Dispatch one click through the rendered targets. -/
def clickSpotTarget (e : ClickEvent) : Option Selection :=
  match (if e.gridPath then renderGridTargets e.spot else renderLotTargets e.spot)[e.targetIdx]? with
  | some h => clickOutcome h e.currentLot
  | none => none

/-- The persisted Selection after a sequence of clicks: `selectSpot`
overwrites it on every successful selection, and nothing else writes it. -/
def runClicks (clicks : List ClickEvent) (init : Option Selection) : Option Selection :=
  match clicks with
  | [] => init
  | e :: rest =>
    runClicks rest (match clickSpotTarget e with
      | some s => some s
      | none => init)

/-! ## Specification-side pattern definitions

These formalise the regular expressions quoted by the specification; they are
compared against the code-side definitions above. -/

/-- A character of the class `[0-9A-Z]`. -/
def isB36U (c : Char) : Bool :=
  (decide ('0' ≤ c) && decide (c ≤ '9')) || (decide ('A' ≤ c) && decide (c ≤ 'Z'))

/-- Split a character list at its last `'-'`: returns the part before it and
the (dash-free) part after it, or `none` when no `'-'` occurs. -/
def splitAtLastDash (rest : List Char) : Option (List Char × List Char) :=
  match rest.reverse.dropWhile (fun c => c ≠ '-') with
  | '-' :: midRev =>
    some (midRev.reverse, (rest.reverse.takeWhile (fun c => c ≠ '-')).reverse)
  | _ => none

/-- Matcher for `^REF-[0-9A-Z]+-[0-9A-Z]{5}$`.  Since neither character group
admits `'-'`, a string matches iff after the literal `REF-` it splits at its
last dash into a nonempty `[0-9A-Z]` run and an exactly-5-character
`[0-9A-Z]` run. -/
def matchesRefPattern (s : String) : Bool :=
  decide (s.data.take 4 = ['R', 'E', 'F', '-']) &&
  match splitAtLastDash (s.data.drop 4) with
  | some (mid, suf) =>
    (!mid.isEmpty) && mid.all isB36U && suf.all isB36U && decide (suf.length = 5)
  | none => false

/-- Matcher for the relaxed pattern `^REF-[0-9A-Z]+-[0-9A-Z]{0,5}$`
(random suffix of at most 5 characters). -/
def matchesRefPatternLoose (s : String) : Bool :=
  decide (s.data.take 4 = ['R', 'E', 'F', '-']) &&
  match splitAtLastDash (s.data.drop 4) with
  | some (mid, suf) =>
    (!mid.isEmpty) && mid.all isB36U && suf.all isB36U && decide (suf.length ≤ 5)
  | none => false

/-- Matcher for `^\d{6,8}$` on the raw (untrimmed) string, as the claim about
the student-id validator states it. -/
def isSixToEightDigits (s : String) : Bool :=
  decide (6 ≤ s.data.length) && decide (s.data.length ≤ 8) && s.data.all Char.isDigit

/-! ## Sample values used by concrete counterexamples and witnesses -/

/-- A registration with the given lot and spot id and plausible remaining
fields. -/
def sampleReg (lotName spotId : String) : Registration :=
  { fullName := "Jane Smith", studentId := "654321", email := "jane@example.com"
    phone := "5551234567", spotType := "solo", gradeLevel := "12"
    parkingLot := lotName, parkingSpot := spotId
    parkingPartner := none, partnerDays := none, userSchedule := none
    submittedAt := "2026-10-11T00:00:00.000Z", referenceId := "REF-0-0" }

/-- A store with every key absent. -/
def emptyStore : Store :=
  { selectedParkingSpot := .absent, currentRegistration := .absent
    parkingSubmissions := .absent, adminSession := .absent }

/-- A store whose stored registration list is corrupt JSON. -/
def corruptStore : Store :=
  { selectedParkingSpot := .absent, currentRegistration := .absent
    parkingSubmissions := .corrupt, adminSession := .absent }

/-- Form fields that pass every `validateForm` rule for a solo spot. -/
def validSoloFields : FormFields :=
  { fullName := "Jane Smith", studentId := "654321", email := "jane@example.com"
    phone := "5551234567", spotType := "Solo", partnerName := "", partnerDays := ""
    gradeLevel := "12", terms := true }

/-! ## Helper lemmas about the form validators -/

theorem mem_fullNameErrors {f : FormFields} {s : String} (h : s ∈ fullNameErrors f) :
    s = "Full Name is required" := by
  unfold fullNameErrors at h
  split at h <;> simp_all

theorem mem_studentIdErrors {f : FormFields} {s : String} (h : s ∈ studentIdErrors f) :
    s = "Student ID is required" ∨ s = "Student ID must be 6-8 digits" := by
  unfold studentIdErrors at h
  split at h
  · simp_all
  · split at h <;> simp_all

theorem mem_spotTypeErrors {f : FormFields} {s : String} (h : s ∈ spotTypeErrors f) :
    s = "Please select a parking spot type" := by
  unfold spotTypeErrors at h
  split at h <;> simp_all

theorem mem_partnerErrors {f : FormFields} {s : String} (h : s ∈ partnerErrors f) :
    s = "Partner name is required for shared spots" := by
  unfold partnerErrors at h
  split at h
  · split at h <;> simp_all
  · simp_all

theorem mem_gradeLevelErrors {f : FormFields} {s : String} (h : s ∈ gradeLevelErrors f) :
    s = "Grade level is required" := by
  unfold gradeLevelErrors at h
  split at h <;> simp_all

theorem mem_termsErrors {f : FormFields} {s : String} (h : s ∈ termsErrors f) :
    s = "You must agree to the parking rules" := by
  unfold termsErrors at h
  split at h <;> simp_all

/-- Every message in `validateForm` comes from one of the seven field
blocks. -/
theorem validateForm_mem_cases {f : FormFields} {s : String} (h : s ∈ validateForm f) :
    s ∈ fullNameErrors f ∨ s ∈ studentIdErrors f ∨ s ∈ emailErrors f ∨
      s ∈ spotTypeErrors f ∨ s ∈ partnerErrors f ∨ s ∈ gradeLevelErrors f ∨
      s ∈ termsErrors f := by
  unfold validateForm at h
  simp only [List.mem_append] at h
  tauto

/-! ## Claim C8 (corrected): student-id validator -/

/-- C8 counterexample: the claim says the validator accepts a string only if
it is exactly a 6-8 digit string (no surrounding whitespace), but the code
trims its argument before testing, so `" 123456 "` — which does not match
`^\d{6,8}$` — is accepted. -/
theorem c8_counterexample :
    validateStudentId " 123456 " = true ∧ isSixToEightDigits " 123456 " = false := by
  decide

/-- C8 amended: the student-id validator accepts a string iff its trimmed
value is exactly a 6-8 digit string; it still rejects `"12345"`,
`"123456789"` and `"12a456"`, but strings that are 6-8 digits surrounded by
whitespace are accepted. -/
theorem c8_amended (s : String) :
    (validateStudentId s = true ↔
      (6 ≤ (jsTrim s).data.length ∧ (jsTrim s).data.length ≤ 8 ∧
        ∀ c ∈ (jsTrim s).data, c.isDigit = true)) ∧
    validateStudentId "12345" = false ∧
    validateStudentId "123456789" = false ∧
    validateStudentId "12a456" = false := by
  refine ⟨?_, by decide, by decide, by decide⟩
  simp [validateStudentId, List.all_eq_true, and_assoc]

/-! ## Claim C10 (confirmed): field-level vs form-level email validation -/

/-- C10: the per-field email validator treats a whitespace-only email as
valid while form-level validation rejects it with "Email is required"; on
every email whose trimmed value is nonempty the two agree (both reduce to
`validateEmail`). -/
theorem c10_email_validation (f : FormFields) :
    (jsTrim f.email = "" →
      validateField "email" f.email = true ∧ "Email is required" ∈ validateForm f) ∧
    (jsTrim f.email ≠ "" →
      validateField "email" f.email = validateEmail f.email ∧
      "Email is required" ∉ validateForm f ∧
      ("Please enter a valid email address" ∈ validateForm f ↔
        validateEmail f.email = false)) := by
  constructor
  · intro h
    constructor
    · simp [validateField, h]
    · have : "Email is required" ∈ emailErrors f := by simp [emailErrors, h]
      unfold validateForm
      simp only [List.mem_append]
      tauto
  · intro h
    refine ⟨by simp [validateField, h], ?_, ?_⟩
    · intro hmem
      rcases validateForm_mem_cases hmem with h1 | h1 | h1 | h1 | h1 | h1 | h1
      · exact absurd (mem_fullNameErrors h1) (by decide)
      · rcases mem_studentIdErrors h1 with h2 | h2 <;> exact absurd h2 (by decide)
      · unfold emailErrors at h1
        rw [if_neg h] at h1
        split at h1 <;> simp_all
      · exact absurd (mem_spotTypeErrors h1) (by decide)
      · exact absurd (mem_partnerErrors h1) (by decide)
      · exact absurd (mem_gradeLevelErrors h1) (by decide)
      · exact absurd (mem_termsErrors h1) (by decide)
    · constructor
      · intro hmem
        rcases validateForm_mem_cases hmem with h1 | h1 | h1 | h1 | h1 | h1 | h1
        · exact absurd (mem_fullNameErrors h1) (by decide)
        · rcases mem_studentIdErrors h1 with h2 | h2 <;> exact absurd h2 (by decide)
        · unfold emailErrors at h1
          rw [if_neg h] at h1
          split at h1 <;> simp_all
        · exact absurd (mem_spotTypeErrors h1) (by decide)
        · exact absurd (mem_partnerErrors h1) (by decide)
        · exact absurd (mem_gradeLevelErrors h1) (by decide)
        · exact absurd (mem_termsErrors h1) (by decide)
      · intro hv
        have : "Please enter a valid email address" ∈ emailErrors f := by
          simp [emailErrors, h, hv]
        unfold validateForm
        simp only [List.mem_append]
        tauto

/-- C10 witness: concrete inputs exercising both branches of the theorem. -/
theorem c10_witness :
    (validateField "email" "   " = true ∧
      "Email is required" ∈ validateForm
        { fullName := "", studentId := "", email := "   ", phone := ""
          spotType := "", partnerName := "", partnerDays := "", gradeLevel := ""
          terms := false }) ∧
    validateField "email" "jane@example" = validateEmail "jane@example" := by
  refine ⟨(c10_email_validation
    { fullName := "", studentId := "", email := "   ", phone := ""
      spotType := "", partnerName := "", partnerDays := "", gradeLevel := ""
      terms := false }).1 (by decide), ?_⟩
  exact ((c10_email_validation
    { fullName := "", studentId := "", email := "jane@example", phone := ""
      spotType := "", partnerName := "", partnerDays := "", gradeLevel := ""
      terms := false }).2 (by decide)).1

/-! ## Claim C4 (confirmed): shared spot with empty partner name -/

/-- C4: a form whose spot-type field is `Shared` and whose partner-name field
trims to empty is rejected with "Partner name is required for shared spots",
and submission leaves the store untouched (no list append, no
current-registration write). -/
theorem c4_shared_empty_partner (f : FormFields) (sel : Option Selection)
    (now : String) (ts : Nat) (rand : List (Fin 36)) (st : Store)
    (h1 : f.spotType = "Shared") (h2 : jsTrim f.partnerName = "") :
    "Partner name is required for shared spots" ∈ validateForm f ∧
    handleFormSubmit f sel now ts rand st = .ok st := by
  have hmem : "Partner name is required for shared spots" ∈ validateForm f := by
    have : "Partner name is required for shared spots" ∈ partnerErrors f := by
      simp [partnerErrors, h1, h2]
    unfold validateForm
    simp only [List.mem_append]
    tauto
  refine ⟨hmem, ?_⟩
  have hne : validateForm f ≠ [] := List.ne_nil_of_mem hmem
  unfold handleFormSubmit
  rw [if_pos (by simpa [List.isEmpty_eq_false] using hne)]

/-- C4 witness: a concrete shared-spot form with an empty partner name. -/
theorem c4_witness :
    "Partner name is required for shared spots" ∈ validateForm
      { validSoloFields with spotType := "Shared", partnerName := " " } ∧
    handleFormSubmit { validSoloFields with spotType := "Shared", partnerName := " " }
      (some { id := "B-3", lot := "Lot B", type := "shared", half := some "A" })
      "2026-10-11T00:00:00.000Z" 0 [] emptyStore = .ok emptyStore :=
  c4_shared_empty_partner _ _ _ _ _ _ (by decide) (by decide)

/-! ## Claim C6 (confirmed): admin remove-registration -/

/-- C6: the confirmed remove-registration action at a valid index yields a
stored list exactly one shorter, equal to the original with just the indexed
entry deleted (all other entries kept in relative order). -/
theorem c6_remove_registration (st : AdminState) (i : Nat)
    (h : i < st.studentSubmissions.length) :
    (removeStudentAction i st).studentSubmissions.length =
        st.studentSubmissions.length - 1 ∧
    (removeStudentAction i st).studentSubmissions =
        st.studentSubmissions.take i ++ st.studentSubmissions.drop (i + 1) ∧
    (removeStudentAction i st).store.parkingSubmissions =
        StorageCell.stored
          (st.studentSubmissions.take i ++ st.studentSubmissions.drop (i + 1)) := by
  unfold removeStudentAction
  rw [List.getElem?_eq_getElem h]
  refine ⟨?_, ?_, ?_⟩
  · simp [List.length_eraseIdx, h]
  · simp [List.eraseIdx_eq_take_drop_succ]
  · simp [List.eraseIdx_eq_take_drop_succ]

/-- C6 witness: removing index 1 from a three-element list. -/
theorem c6_witness :
    (removeStudentAction 1
      { parkingData := [], store := emptyStore
        studentSubmissions :=
          [sampleReg "Lot A" "A-1", sampleReg "Lot A" "A-2", sampleReg "Lot A" "A-3"] }
      ).studentSubmissions =
      [sampleReg "Lot A" "A-1", sampleReg "Lot A" "A-3"] := by
  have h := c6_remove_registration
    { parkingData := [], store := emptyStore
      studentSubmissions :=
        [sampleReg "Lot A" "A-1", sampleReg "Lot A" "A-2", sampleReg "Lot A" "A-3"] }
    1 (by decide)
  exact h.2.1

/-! ## Claim C2 (corrected): corrupt stored list during submission -/

/-- C2 counterexample: with a corrupt `parkingSubmissions` value, form
submission does not treat the list as empty and complete — `JSON.parse`
throws out of `saveFormData`, so the submission fails. -/
theorem c2_counterexample :
    handleFormSubmit validSoloFields
        (some { id := "A-5", lot := "Lot A", type := "solo", half := none })
        "2026-10-11T00:00:00.000Z" 0 [] corruptStore =
      .error "SyntaxError: Unexpected token in JSON" := by
  rfl

/-- C2 amended: the admin read site (`loadStudentSubmissions`) catches a
corrupt stored list and treats it as empty, and the form-submission read
treats an absent key as the empty list; but a corrupt stored list at the
form-submission site propagates as an exception and the submission does not
complete. -/
theorem c2_amended (reg : Registration) (st : Store) :
    loadStudentSubmissions StorageCell.corrupt = [] ∧
    loadStudentSubmissions StorageCell.absent = [] ∧
    (st.parkingSubmissions = StorageCell.absent →
      saveFormData reg st =
        .ok { st with currentRegistration := .stored reg
                      parkingSubmissions := .stored [reg] }) ∧
    (st.parkingSubmissions = StorageCell.corrupt →
      saveFormData reg st = .error "SyntaxError: Unexpected token in JSON") := by
  refine ⟨rfl, rfl, ?_, ?_⟩
  · intro h
    simp [saveFormData, jsonParseOrEmpty, h]
  · intro h
    simp [saveFormData, jsonParseOrEmpty, h]

/-- C2 witness: the amended theorem at an absent and a corrupt store. -/
theorem c2_witness :
    saveFormData (sampleReg "Lot A" "A-5") emptyStore =
      .ok { emptyStore with
              currentRegistration := .stored (sampleReg "Lot A" "A-5")
              parkingSubmissions := .stored [sampleReg "Lot A" "A-5"] } ∧
    saveFormData (sampleReg "Lot A" "A-5") corruptStore =
      .error "SyntaxError: Unexpected token in JSON" :=
  ⟨(c2_amended (sampleReg "Lot A" "A-5") emptyStore).2.2.1 rfl,
   (c2_amended (sampleReg "Lot A" "A-5") corruptStore).2.2.2 rfl⟩

/-! ## Claim C5 (confirmed): successful solo submission merges the Selection -/

/-- C5: for a valid form and a persisted solo Selection, submission appends a
Registration whose lot, spot id and spot type come from the Selection (the
duplicate `spotType` key in the object literal makes `selectedSpot.type`
override the form's editable spot-type field). -/
theorem c5_solo_submission (f : FormFields) (sel : Selection) (now : String)
    (ts : Nat) (rand : List (Fin 36)) (l : List Registration) (st : Store)
    (hv : validateForm f = []) (hs : st.parkingSubmissions = StorageCell.stored l)
    (hsolo : sel.type = "solo") :
    handleFormSubmit f (some sel) now ts rand st =
      .ok { st with
              currentRegistration := .stored (collectFormData f sel now ts rand)
              parkingSubmissions := .stored (l ++ [collectFormData f sel now ts rand]) } ∧
    (collectFormData f sel now ts rand).parkingLot = sel.lot ∧
    (collectFormData f sel now ts rand).parkingSpot = sel.id ∧
    (collectFormData f sel now ts rand).spotType = "solo" := by
  refine ⟨?_, ?_, ?_, ?_⟩
  · simp [handleFormSubmit, hv, saveFormData, jsonParseOrEmpty, hs]
  · simp [collectFormData, hsolo]
  · simp [collectFormData, hsolo]
  · simp [collectFormData, hsolo]

/-- C5 witness: submitting the sample valid form for Selection `A-5` in
`Lot A` of type `solo`. -/
theorem c5_witness :
    (collectFormData validSoloFields
        { id := "A-5", lot := "Lot A", type := "solo", half := none }
        "2026-10-11T00:00:00.000Z" 0 []).parkingLot = "Lot A" ∧
    (collectFormData validSoloFields
        { id := "A-5", lot := "Lot A", type := "solo", half := none }
        "2026-10-11T00:00:00.000Z" 0 []).parkingSpot = "A-5" ∧
    (collectFormData validSoloFields
        { id := "A-5", lot := "Lot A", type := "solo", half := none }
        "2026-10-11T00:00:00.000Z" 0 []).spotType = "solo" := by
  have h := c5_solo_submission validSoloFields
    { id := "A-5", lot := "Lot A", type := "solo", half := none }
    "2026-10-11T00:00:00.000Z" 0 [] []
    { emptyStore with parkingSubmissions := StorageCell.stored [] }
    (by decide) rfl rfl
  exact ⟨h.2.1, h.2.2.1, h.2.2.2⟩

/-! ## Claim C7 (corrected): admin login -/

/-- C7 counterexample: the claim says a non-empty input unequal to the
configured password leaves the console at LoggedOut with no session written,
but the code compares the **trimmed** input: `"hunter2 "` is unequal to the
configured `"hunter2"` yet logs in, writing a session and showing the
dashboard. -/
theorem c7_counterexample :
    (handleAdminLogin "hunter2 " (.ok { adminPassword := "hunter2" })
        "2026-10-11T00:00:00.000Z" 0 [] emptyStore).screen = Screen.Dashboard ∧
    (handleAdminLogin "hunter2 " (.ok { adminPassword := "hunter2" })
        "2026-10-11T00:00:00.000Z" 0 [] emptyStore).store.adminSession =
      StorageCell.stored
        { authenticated := true, loginTime := "2026-10-11T00:00:00.000Z"
          sessionId := "SESSION-0-" } ∧
    "hunter2 " ≠ "hunter2" := by
  refine ⟨by decide, by decide, by decide⟩

/-- C7 amended: login decides on the **trimmed** input.  A whitespace-only
input is rejected locally, independently of the configuration fetch; a
non-empty trimmed input unequal to the configured password shows an error,
clears the input and writes no session; a trimmed input equal to the
configured password persists {authenticated, loginTime, random session id}
and transitions to Dashboard. -/
theorem c7_amended (input : String) (cfg : Config) (c1 c2 : Except String Config)
    (now : String) (ts : Nat) (ds : List (Fin 36)) (st : Store) (hnow : now ≠ "") :
    (jsTrim input = "" →
      handleAdminLogin input c1 now ts ds st = handleAdminLogin input c2 now ts ds st ∧
      (handleAdminLogin input c1 now ts ds st).store = st ∧
      (handleAdminLogin input c1 now ts ds st).screen = .LoggedOut ∧
      (handleAdminLogin input c1 now ts ds st).errorMsg = some "Please enter a password.") ∧
    (jsTrim input ≠ "" → jsTrim input ≠ cfg.adminPassword →
      handleAdminLogin input (.ok cfg) now ts ds st =
        { screen := .LoggedOut, errorMsg := some "Invalid password. Please try again."
          passwordInput := "", store := st }) ∧
    (jsTrim input ≠ "" → jsTrim input = cfg.adminPassword →
      (handleAdminLogin input (.ok cfg) now ts ds st).store.adminSession =
        StorageCell.stored
          { authenticated := true, loginTime := now, sessionId := generateSessionId ts ds } ∧
      (handleAdminLogin input (.ok cfg) now ts ds st).screen = .Dashboard) := by
  refine ⟨?_, ?_, ?_⟩
  · intro h
    refine ⟨?_, ?_, ?_, ?_⟩ <;> simp [handleAdminLogin, h]
  · intro h1 h2
    simp [handleAdminLogin, h1, h2]
  · intro h1 h2
    have h3 : cfg.adminPassword ≠ "" := h2 ▸ h1
    constructor
    · simp [handleAdminLogin, h1, h2, h3, createAdminSession]
    · simp [handleAdminLogin, h1, h2, h3, createAdminSession, checkAdminSession,
        isSessionValid, generateSessionId, hnow]

/-- C7 witness: a successful login with password `"open"`, plus the local
rejection of a whitespace-only input. -/
theorem c7_witness :
    (handleAdminLogin "open" (.ok { adminPassword := "open" })
        "2026-10-11T00:00:00.000Z" 7 [] emptyStore).screen = Screen.Dashboard ∧
    (handleAdminLogin "  " (.ok { adminPassword := "open" })
        "2026-10-11T00:00:00.000Z" 7 [] emptyStore).store = emptyStore := by
  have h := c7_amended "open" { adminPassword := "open" }
    (.ok { adminPassword := "open" }) (.ok { adminPassword := "open" })
    "2026-10-11T00:00:00.000Z" 7 [] emptyStore (by decide)
  have h2 := c7_amended "  " { adminPassword := "open" }
    (.ok { adminPassword := "open" }) (.ok { adminPassword := "open" })
    "2026-10-11T00:00:00.000Z" 7 [] emptyStore (by decide)
  exact ⟨(h.2.2 (by decide) (by decide)).2, (h2.1 (by decide)).2.1⟩

/-! ## Claim C9 (confirmed): taken spots are inert -/

/-- Clicking any rendered target of a spot whose status is `taken` never
triggers a selection: either no handler was attached, or the handler's guard
re-checks the status. -/
theorem clickSpotTarget_taken {e : ClickEvent} (htaken : e.spot.status = "taken") :
    clickSpotTarget e = none := by
  rcases e with ⟨b, sp, i, lot⟩
  simp only at htaken
  cases b <;> rcases i with _ | _ | i <;>
    by_cases ht : sp.type = "shared" <;>
      simp [clickSpotTarget, renderGridTargets, renderLotTargets, clickOutcome, ht, htaken]

/-- A click that does produce a selection comes from a non-taken spot, and
the produced Selection carries that spot's id. -/
theorem clickSpotTarget_some_spec {e : ClickEvent} {sel : Selection}
    (h : clickSpotTarget e = some sel) :
    e.spot.status ≠ "taken" ∧ sel.id = e.spot.id := by
  refine ⟨fun htaken => Option.noConfusion (clickSpotTarget_taken htaken ▸ h), ?_⟩
  rcases e with ⟨b, sp, i, lot⟩
  cases b <;> rcases i with _ | _ | i <;>
    by_cases ht : sp.type = "shared" <;>
      by_cases hs : sp.status = "taken" <;>
        simp_all [clickSpotTarget, renderGridTargets, renderLotTargets, clickOutcome,
          selectSpotResult]
  all_goals rw [← h]

/-- A selection present after running clicks from an empty initial state was
produced by one of the clicks. -/
theorem runClicks_eq_some (clicks : List ClickEvent) (init : Option Selection)
    (sel : Selection) (h : runClicks clicks init = some sel) :
    (∃ e ∈ clicks, clickSpotTarget e = some sel) ∨ init = some sel := by
  induction clicks generalizing init with
  | nil => exact Or.inr h
  | cons e cs ih =>
    rw [runClicks] at h
    rcases ih _ h with ⟨e', he', hs⟩ | hstep
    · exact Or.inl ⟨e', List.mem_cons_of_mem _ he', hs⟩
    · cases hce : clickSpotTarget e with
      | some s =>
        rw [hce] at hstep
        exact Or.inl ⟨e, List.mem_cons_self e cs, by rw [hce]; exact hstep⟩
      | none =>
        rw [hce] at hstep
        exact Or.inr hstep

/-- C9: no activation target of a taken spot can trigger spot selection, so
whenever a Selection has been persisted by a sequence of clicks on rendered
targets, it was produced by a click on a spot that was not taken (and records
that spot's id). -/
theorem c9_taken_spots_inert (clicks : List ClickEvent) (sel : Selection)
    (h : runClicks clicks none = some sel) :
    (∀ e : ClickEvent, e.spot.status = "taken" → clickSpotTarget e = none) ∧
    ∃ e ∈ clicks, e.spot.status ≠ "taken" ∧ clickSpotTarget e = some sel ∧
      sel.id = e.spot.id := by
  refine ⟨fun e he => clickSpotTarget_taken he, ?_⟩
  rcases runClicks_eq_some clicks none sel h with ⟨e, he, hs⟩ | hinit
  · obtain ⟨hnt, hid⟩ := clickSpotTarget_some_spec hs
    exact ⟨e, he, hnt, hs, hid⟩
  · exact Option.noConfusion hinit

/-- A concrete click on an available solo spot in `Lot A`. -/
def availableClick : ClickEvent :=
  { gridPath := false
    spot := { id := "A-1", status := "available", type := "solo", assignedTo := none }
    targetIdx := 0, currentLot := "Lot A" }

/-- C9 witness: a single click on an available solo spot produces exactly
that spot's Selection. -/
theorem c9_witness :
    ∃ e ∈ [availableClick], e.spot.status ≠ "taken" ∧
      clickSpotTarget e = some { id := "A-1", lot := "Lot A", type := "solo", half := none } ∧
      Selection.id { id := "A-1", lot := "Lot A", type := "solo", half := none } = e.spot.id :=
  (c9_taken_spots_inert [availableClick]
    { id := "A-1", lot := "Lot A", type := "solo", half := none } (by decide)).2

/-! ## Claim C3 (corrected): admin clear-spot -/

theorem jsFindIndex_append_cons {α : Type} (p : α → Bool) (pre : List α) (r : α)
    (post : List α) (hpre : ∀ x ∈ pre, p x = false) (hr : p r = true) :
    jsFindIndex p (pre ++ r :: post) = (pre.length : Int) := by
  induction pre with
  | nil => simp [jsFindIndex, hr]
  | cons a as ih =>
    have ha : p a = false := hpre a (List.mem_cons_self a as)
    have ih' := ih (fun x hx => hpre x (List.mem_cons_of_mem _ hx))
    have hstep : jsFindIndex p ((a :: as) ++ r :: post) =
        if jsFindIndex p (as ++ r :: post) = -1 then -1
        else jsFindIndex p (as ++ r :: post) + 1 := by
      simp [jsFindIndex, ha]
    rw [hstep, ih']
    have hne : ((as.length : Int)) ≠ -1 := by omega
    rw [if_neg hne]
    simp only [List.length_cons]
    omega

theorem eraseIdx_append_cons {α : Type} (pre : List α) (r : α) (post : List α) :
    (pre ++ r :: post).eraseIdx pre.length = pre ++ post := by
  induction pre with
  | nil => simp
  | cons a as ih => simp [ih]

theorem find?_append_cons {α : Type} (p : α → Bool) (pre : List α) (r : α)
    (post : List α) (hpre : ∀ x ∈ pre, p x = false) (hr : p r = true) :
    (pre ++ r :: post).find? p = some r := by
  induction pre with
  | nil => exact List.find?_cons_of_pos _ hr
  | cons a as ih =>
    have ha : p a = false := hpre a (List.mem_cons_self a as)
    have ih' := ih (fun x hx => hpre x (List.mem_cons_of_mem _ hx))
    rw [List.cons_append, List.find?_cons_of_neg _ (by simp [ha])]
    exact ih'

theorem setSpotCleared_append (spotId : String) (spre : List Spot) (sp : Spot)
    (spost : List Spot) (hspre : ∀ x ∈ spre, (x.id == spotId) = false)
    (hsp : sp.id = spotId) :
    setSpotCleared spotId (spre ++ sp :: spost) =
      spre ++ ({ sp with status := "available", assignedTo := none }) :: spost := by
  induction spre with
  | nil => simp [setSpotCleared, hsp]
  | cons a as ih =>
    have ha : (a.id == spotId) = false := hspre a (List.mem_cons_self a as)
    have ih' := ih (fun x hx => hspre x (List.mem_cons_of_mem _ hx))
    simp [setSpotCleared, ha, ih']

theorem lookupLot_updateLot (pd : List (String × Lot)) (k : String) (lot newLot : Lot)
    (h : lookupLot pd k = some lot) :
    lookupLot (updateLot pd k newLot) k = some newLot := by
  induction pd with
  | nil => simp [lookupLot] at h
  | cons p ps ih =>
    have hupd : updateLot (p :: ps) k newLot =
        (if (p.1 == k) = true then (p.1, newLot) else p) :: updateLot ps k newLot := by
      simp [updateLot]
    rw [hupd]
    by_cases hk : (p.1 == k) = true
    · rw [if_pos hk]
      unfold lookupLot
      simp only [List.find?]
      rw [hk]
      rfl
    · rw [if_neg hk]
      have hk' : (p.1 == k) = false := by simpa using hk
      unfold lookupLot at h ⊢
      simp only [List.find?] at h ⊢
      rw [hk'] at h ⊢
      exact ih h

/-- C3 amended: the confirmed clear-spot action sets the first spot with the
given id to available/unassigned, and removes the **first** registration (in
insertion order) whose spot id matches — regardless of which lot that
registration belongs to — rewriting the stored list; registrations after the
first match, even for the same spot id, are kept. -/
theorem c3_amended (st : AdminState) (lotKey spotId : String) (lot : Lot)
    (spre : List Spot) (sp : Spot) (spost : List Spot)
    (pre : List Registration) (r : Registration) (post : List Registration)
    (hlot : lookupLot st.parkingData lotKey = some lot)
    (hspots : lot.spots = spre ++ sp :: spost)
    (hspre : ∀ x ∈ spre, (x.id == spotId) = false)
    (hsp : sp.id = spotId)
    (hsubs : st.studentSubmissions = pre ++ r :: post)
    (hrpre : ∀ x ∈ pre, (x.parkingSpot == spotId) = false)
    (hr : r.parkingSpot = spotId) :
    lookupLot (clearSpotAction st lotKey spotId).parkingData lotKey =
      some { lot with
               spots := spre ++ ({ sp with status := "available", assignedTo := none }) :: spost } ∧
    (clearSpotAction st lotKey spotId).studentSubmissions = pre ++ post ∧
    (clearSpotAction st lotKey spotId).store.parkingSubmissions =
      StorageCell.stored (pre ++ post) := by
  have hfind : lot.spots.find? (fun s => s.id == spotId) = some sp := by
    rw [hspots]
    exact find?_append_cons _ _ _ _ hspre (by simp [hsp])
  have hidx : jsFindIndex (fun s => s.parkingSpot == spotId) st.studentSubmissions =
      (pre.length : Int) := by
    rw [hsubs]
    exact jsFindIndex_append_cons _ _ _ _ hrpre (by simp [hr])
  have hne : ((pre.length : Int)) ≠ -1 := by omega
  have hsubs' : st.studentSubmissions.eraseIdx ((pre.length : Int)).toNat = pre ++ post := by
    rw [hsubs, Int.toNat_natCast]
    exact eraseIdx_append_cons _ _ _
  have hcleared : setSpotCleared spotId lot.spots =
      spre ++ ({ sp with status := "available", assignedTo := none }) :: spost := by
    rw [hspots]
    exact setSpotCleared_append _ _ _ _ hspre hsp
  unfold clearSpotAction
  simp only [hlot, hfind, hidx]
  rw [if_pos hne]
  refine ⟨?_, by simpa using hsubs', by simpa using hsubs'⟩
  simpa [hcleared] using
    lookupLot_updateLot st.parkingData lotKey lot
      { lot with spots := setSpotCleared spotId lot.spots } hlot

/-- Registration claiming spot id `A-5` but belonging to Lot B. -/
def regA5LotB : Registration := sampleReg "Lot B" "A-5"

/-- Registration claiming spot id `A-5` in Lot A. -/
def regA5LotA : Registration := sampleReg "Lot A" "A-5"

/-- Dashboard state with one taken spot `A-5` in Lot A and two registrations
whose spot id is `A-5`, the first of them belonging to Lot B. -/
def c3State : AdminState :=
  { parkingData :=
      [("lota",
        { name := "Lot A"
          spots := [{ id := "A-5", status := "taken", type := "solo"
                      assignedTo := some "Jane Smith" }] })]
    studentSubmissions := [regA5LotB, regA5LotA]
    store := emptyStore }

/-- C3 counterexample: clearing spot `A-5` of Lot A removes only the first
matching registration — here the one belonging to Lot B — and leaves the
second registration for the very same spot id in the list, refuting both
"all of them are removed" and "registrations for spots in other lots are
untouched". -/
theorem c3_counterexample :
    (clearSpotAction c3State "lota" "A-5").studentSubmissions = [regA5LotA] ∧
    regA5LotA.parkingSpot = "A-5" ∧
    regA5LotB.parkingLot = "Lot B" ∧
    regA5LotB ∉ (clearSpotAction c3State "lota" "A-5").studentSubmissions := by
  refine ⟨by decide, by decide, by decide, by decide⟩

/-- C3 witness: the amended theorem applied to the concrete dashboard state
above. -/
theorem c3_witness :
    (clearSpotAction c3State "lota" "A-5").studentSubmissions = [] ++ [regA5LotA] ∧
    (clearSpotAction c3State "lota" "A-5").store.parkingSubmissions =
      StorageCell.stored ([] ++ [regA5LotA]) := by
  have h := c3_amended c3State "lota" "A-5"
    { name := "Lot A"
      spots := [{ id := "A-5", status := "taken", type := "solo"
                  assignedTo := some "Jane Smith" }] }
    [] { id := "A-5", status := "taken", type := "solo", assignedTo := some "Jane Smith" } []
    [] regA5LotB [regA5LotA]
    (by decide) rfl (by intro x hx; cases hx) rfl rfl (by intro x hx; cases hx) rfl
  exact ⟨h.2.1, h.2.2⟩

/-! ## Claim C1 (corrected): reference id format -/

theorem isB36U_toUpper_digit (d : Nat) (hd : d < 36) :
    isB36U (toUpperChar (digitChar36 d)) = true := by
  have h : ∀ e : Fin 36, isB36U (toUpperChar (digitChar36 e.val)) = true := by decide
  exact h ⟨d, hd⟩

theorem toB36_ne_nil (n : Nat) : toB36 n ≠ [] := by
  rw [toB36]
  split <;> simp

theorem toB36_all_b36u (n : Nat) : ∀ c ∈ toB36 n, isB36U (toUpperChar c) = true := by
  induction n using Nat.strong_induction_on with
  | _ n ih =>
    rw [toB36]
    split
    · next h =>
      intro c hc
      simp only [List.mem_singleton] at hc
      subst hc
      exact isB36U_toUpper_digit n h
    · next h =>
      intro c hc
      rw [List.mem_append] at hc
      rcases hc with hc | hc
      · exact ih (n / 36) (Nat.div_lt_self (by omega) (by omega)) c hc
      · simp only [List.mem_singleton] at hc
        subst hc
        exact isB36U_toUpper_digit _ (Nat.mod_lt _ (by omega))

theorem takeWhile_append_cons {α : Type} (p : α → Bool) (l : List α) (c : α)
    (m : List α) (hl : ∀ x ∈ l, p x = true) (hc : p c = false) :
    (l ++ c :: m).takeWhile p = l := by
  induction l with
  | nil => simp [List.takeWhile_cons, hc]
  | cons a as ih =>
    have ha := hl a (List.mem_cons_self a as)
    simp [List.takeWhile_cons, ha, ih (fun x hx => hl x (List.mem_cons_of_mem _ hx))]

theorem dropWhile_append_cons {α : Type} (p : α → Bool) (l : List α) (c : α)
    (m : List α) (hl : ∀ x ∈ l, p x = true) (hc : p c = false) :
    (l ++ c :: m).dropWhile p = c :: m := by
  induction l with
  | nil => simp [List.dropWhile_cons, hc]
  | cons a as ih =>
    have ha := hl a (List.mem_cons_self a as)
    simp [List.dropWhile_cons, ha, ih (fun x hx => hl x (List.mem_cons_of_mem _ hx))]

theorem isB36U_ne_dash {c : Char} (h : isB36U c = true) : c ≠ '-' := by
  intro heq
  subst heq
  exact absurd h (by decide)

theorem splitAtLastDash_append (mid suf : List Char)
    (hsuf : ∀ c ∈ suf, isB36U c = true) :
    splitAtLastDash (mid ++ '-' :: suf) = some (mid, suf) := by
  have hsuf' : ∀ x ∈ suf.reverse, (decide (x ≠ '-')) = true := by
    intro x hx
    rw [List.mem_reverse] at hx
    simpa using isB36U_ne_dash (hsuf x hx)
  have hdash : (decide (('-' : Char) ≠ '-')) = false := by decide
  have hrev : (mid ++ '-' :: suf).reverse = suf.reverse ++ '-' :: mid.reverse := by
    simp
  have h1 : ((mid ++ '-' :: suf).reverse).dropWhile (fun c => decide (c ≠ '-')) =
      '-' :: mid.reverse := by
    rw [hrev]
    exact dropWhile_append_cons _ _ _ _ hsuf' hdash
  have h2 : ((mid ++ '-' :: suf).reverse).takeWhile (fun c => decide (c ≠ '-')) =
      suf.reverse := by
    rw [hrev]
    exact takeWhile_append_cons _ _ _ _ hsuf' hdash
  unfold splitAtLastDash
  rw [h1, h2]
  simp

/-- The random suffix characters of a generated reference id: the first five
fractional base-36 digits, uppercased. -/
def refSuffixChars (ds : List (Fin 36)) : List Char :=
  (ds.take 5).map (fun d => toUpperChar (digitChar36 d.val))

theorem generateReferenceId_data (ts : Nat) (ds : List (Fin 36)) :
    (generateReferenceId ts ds).data =
      ['R', 'E', 'F', '-'] ++
        ((toB36 ts).map toUpperChar ++ '-' :: refSuffixChars ds) := by
  cases ds with
  | nil =>
    simp [generateReferenceId, jsToUpper, jsSubstring, randomToString36, refSuffixChars,
      String.data_append]
  | cons d tl =>
    simp [generateReferenceId, jsToUpper, jsSubstring, randomToString36, refSuffixChars,
      String.data_append, List.map_take, List.map_map]
    rfl

/-- C1 counterexample: when `Math.random()` returns `0`, its base-36 string
is `"0"`, `substring(2, 7)` of it is empty, and the generated id `REF-0-`
does not match `^REF-[0-9A-Z]+-[0-9A-Z]{5}$` — the random suffix is not
always exactly 5 characters. -/
theorem c1_counterexample :
    generateReferenceId 0 [] = "REF-0-" ∧
    matchesRefPattern (generateReferenceId 0 []) = false := by
  have h0 : toB36 0 = ['0'] := by
    rw [toB36]
    decide
  have hgen : generateReferenceId 0 [] = "REF-0-" := by
    unfold generateReferenceId
    rw [h0]
    decide
  rw [hgen]
  exact ⟨rfl, by decide⟩

/-- C1 amended: for every timestamp and every random value, the generated id
matches the relaxed pattern `^REF-[0-9A-Z]+-[0-9A-Z]{0,5}$` (uppercase, with
a random suffix of **at most** 5 characters); whenever the random value's
printed base-36 expansion has at least 5 fractional digits — which is the
case for all but a measure-zero set of `Math.random()` outputs — the id
matches the original `^REF-[0-9A-Z]+-[0-9A-Z]{5}$`. -/
theorem c1_amended (ts : Nat) (ds : List (Fin 36)) :
    matchesRefPatternLoose (generateReferenceId ts ds) = true ∧
    (5 ≤ ds.length → matchesRefPattern (generateReferenceId ts ds) = true) := by
  have hdata := generateReferenceId_data ts ds
  have hsuf_mem : ∀ c ∈ refSuffixChars ds, isB36U c = true := by
    intro c hc
    unfold refSuffixChars at hc
    rw [List.mem_map] at hc
    obtain ⟨d, _, rfl⟩ := hc
    exact isB36U_toUpper_digit d.val d.isLt
  have htake : (generateReferenceId ts ds).data.take 4 = ['R', 'E', 'F', '-'] := by
    rw [hdata]
    exact List.take_left' rfl
  have hdrop : (generateReferenceId ts ds).data.drop 4 =
      (toB36 ts).map toUpperChar ++ '-' :: refSuffixChars ds := by
    rw [hdata]
    exact List.drop_left' rfl
  have hsplit : splitAtLastDash ((generateReferenceId ts ds).data.drop 4) =
      some ((toB36 ts).map toUpperChar, refSuffixChars ds) := by
    rw [hdrop]
    exact splitAtLastDash_append _ _ hsuf_mem
  have hmid_ne : ((toB36 ts).map toUpperChar).isEmpty = false := by
    simp [toB36_ne_nil ts]
  have hmid_all : ((toB36 ts).map toUpperChar).all isB36U = true := by
    rw [List.all_eq_true]
    intro c hc
    rw [List.mem_map] at hc
    obtain ⟨c', hc', rfl⟩ := hc
    exact toB36_all_b36u ts c' hc'
  have hsuf_all : (refSuffixChars ds).all isB36U = true :=
    List.all_eq_true.mpr hsuf_mem
  have hlen : (refSuffixChars ds).length = min 5 ds.length := by
    simp [refSuffixChars]
  constructor
  · unfold matchesRefPatternLoose
    rw [hsplit]
    simp [htake, hmid_ne, hmid_all, hsuf_all, hlen]
  · intro h5
    unfold matchesRefPattern
    rw [hsplit]
    simp [htake, hmid_ne, hmid_all, hsuf_all, hlen]
    omega

/-- C1 witness: with at least five fractional random digits the id matches
the strict pattern, and the loose pattern always holds. -/
theorem c1_witness :
    matchesRefPatternLoose (generateReferenceId 0 [0, 0, 0, 0, 0]) = true ∧
    matchesRefPattern (generateReferenceId 0 [0, 0, 0, 0, 0]) = true :=
  ⟨(c1_amended 0 [0, 0, 0, 0, 0]).1, (c1_amended 0 [0, 0, 0, 0, 0]).2 (by decide)⟩
